import Mathlib

/-!
Verification of the chunk/call/join core of the Smart-Legal-Solutions
repository (src/agents.py), shallowly embedded in Lean.

Modelling conventions:
* Python strings are embedded as `List Char`; a Lean string literal `s`
  denotes the Python string with the same characters, via `s.data`.
* The `while start < len(document)` loop of `chunk_document` is embedded
  as a structurally recursive function `chunkLoop` driven by a fuel
  counter; `document.length` units of fuel always suffice because each
  iteration with `0 < max_length` consumes at least one character
  (this adequacy is proved, not assumed).
* The LangChain model client (`model.invoke`), an external collaborator,
  is a parameter of type `Client := List Message → Except (List Char)
  (List Char)`; `Except.error e` models `model.invoke` raising an
  exception whose `str` is `e`, and `Except.ok t` models a response
  object whose `.content` is `t`.
* `str.format(document=...)` is embedded as `substPlaceholder`, which
  replaces every occurrence of the literal placeholder `{document}`
  (written with escaped braces below) by the document text, scanning
  left to right and never rescanning substituted text — exactly
  Python's behaviour on these templates, which contain no other brace.
* `logging.error` calls are side effects with no influence on any
  return value and are not modelled.
-/

/-! ## Chunker (src/agents.py, `chunk_document`, lines 30-37) -/

/-- One fuel-indexed unfolding of the scan loop of `chunk_document`:
`while start < len(document): end = min(start + max_length, len(document));
chunks.append(document[start:end]); start = end`.  The suffix of the
document still to be scanned is the explicit argument; slicing
`document[start:end]` is `take max_length` of that suffix and the new
scan position corresponds to `drop max_length`. -/
def chunkLoop (max_length : Nat) : Nat → List Char → List (List Char)
  | 0, _ => []
  | _ + 1, [] => []
  | fuel + 1, c :: cs => (c :: cs).take max_length :: chunkLoop max_length fuel ((c :: cs).drop max_length)

/-- `chunk_document(document, max_length)` from src/agents.py: the loop is
run with `document.length` fuel, which is enough for it to reach its exit
condition whenever `0 < max_length` (proved below). -/
def chunk_document (document : List Char) (max_length : Nat) : List (List Char) :=
  chunkLoop max_length document.length document

/-- The default `max_length` of `chunk_document`; every agent in
src/agents.py calls `chunk_document(document)` with this default. -/
def defaultMaxLength : Nat := 5000

theorem chunkLoop_nil (m fuel : Nat) : chunkLoop m fuel [] = [] := by
  cases fuel <;> rfl

theorem chunkLoop_cons (m fuel : Nat) (c : Char) (cs : List Char) :
    chunkLoop m (fuel + 1) (c :: cs)
      = (c :: cs).take m :: chunkLoop m fuel ((c :: cs).drop m) := rfl

/-- Fuel adequacy: any two fuel amounts at least the length of the
remaining document give the same chunk list (so the embedded loop has
genuinely terminated by then). -/
theorem chunkLoop_eq_of_le (m : Nat) (hm : 0 < m) :
    ∀ fuel₁ fuel₂ doc, doc.length ≤ fuel₁ → doc.length ≤ fuel₂ →
      chunkLoop m fuel₁ doc = chunkLoop m fuel₂ doc := by
  intro fuel₁
  induction fuel₁ with
  | zero =>
    intro fuel₂ doc h1 _
    have hd : doc = [] := List.eq_nil_of_length_eq_zero (Nat.le_zero.mp h1)
    subst hd
    simp [chunkLoop_nil]
  | succ f ih =>
    intro fuel₂ doc h1 h2
    cases doc with
    | nil => simp [chunkLoop_nil]
    | cons c cs =>
      cases fuel₂ with
      | zero => simp at h2
      | succ f₂ =>
        rw [chunkLoop_cons, chunkLoop_cons]
        congr 1
        apply ih
        · rw [List.length_drop]
          simp only [List.length_cons] at h1 ⊢
          omega
        · rw [List.length_drop]
          simp only [List.length_cons] at h2 ⊢
          omega

/-- If the document is nonempty, the loop produces a nonempty chunk list. -/
theorem chunkLoop_ne_nil (m fuel : Nat) (doc : List Char)
    (hd : doc ≠ []) (hfuel : doc.length ≤ fuel) :
    chunkLoop m fuel doc ≠ [] := by
  cases doc with
  | nil => exact absurd rfl hd
  | cons c cs =>
    cases fuel with
    | zero => simp at hfuel
    | succ f => rw [chunkLoop_cons]; exact List.cons_ne_nil _ _

/-- Unfolding of `chunk_document` on a nonempty document. -/
theorem chunk_document_step (m : Nat) (hm : 0 < m) (doc : List Char) (hd : doc ≠ []) :
    chunk_document doc m = doc.take m :: chunk_document (doc.drop m) m := by
  cases doc with
  | nil => exact absurd rfl hd
  | cons c cs =>
    show chunkLoop m (cs.length + 1) (c :: cs) = _
    rw [chunkLoop_cons]
    congr 1
    apply chunkLoop_eq_of_le m hm
    · rw [List.length_drop]
      simp only [List.length_cons]
      omega
    · exact Nat.le_refl _

theorem chunk_document_nil (m : Nat) : chunk_document [] m = [] := rfl

/-- Concatenating the chunks reproduces the document. -/
theorem chunkLoop_flatten (m : Nat) (hm : 0 < m) :
    ∀ fuel doc, doc.length ≤ fuel → (chunkLoop m fuel doc).flatten = doc := by
  intro fuel
  induction fuel with
  | zero =>
    intro doc h1
    have hd : doc = [] := List.eq_nil_of_length_eq_zero (Nat.le_zero.mp h1)
    subst hd
    simp [chunkLoop_nil]
  | succ f ih =>
    intro doc h1
    cases doc with
    | nil => simp [chunkLoop_nil]
    | cons c cs =>
      rw [chunkLoop_cons, List.flatten_cons]
      rw [ih]
      · exact List.take_append_drop m (c :: cs)
      · rw [List.length_drop]
        simp only [List.length_cons] at h1 ⊢
        omega

/-- Every chunk except the last has length exactly `m`. -/
theorem chunkLoop_dropLast_lengths (m : Nat) (hm : 0 < m) :
    ∀ fuel doc, doc.length ≤ fuel →
      ((chunkLoop m fuel doc).dropLast).map List.length
        = List.replicate ((chunkLoop m fuel doc).length - 1) m := by
  intro fuel
  induction fuel with
  | zero =>
    intro doc h1
    have hd : doc = [] := List.eq_nil_of_length_eq_zero (Nat.le_zero.mp h1)
    subst hd
    simp [chunkLoop_nil]
  | succ f ih =>
    intro doc h1
    cases doc with
    | nil => simp [chunkLoop_nil]
    | cons c cs =>
      rw [chunkLoop_cons]
      by_cases hrest : (c :: cs).drop m = []
      · rw [hrest, chunkLoop_nil]
        simp
      · have hlen : ((c :: cs).drop m).length ≤ f := by
          rw [List.length_drop]
          simp only [List.length_cons] at h1 ⊢
          omega
        have hne := chunkLoop_ne_nil m f ((c :: cs).drop m) hrest hlen
        rw [List.dropLast_cons_of_ne_nil hne, List.map_cons, ih _ hlen]
        have hml : m < (c :: cs).length := by
          by_contra hcon
          exact hrest (List.drop_eq_nil_of_le (Nat.le_of_not_lt hcon))
        have htake : ((c :: cs).take m).length = m := by
          rw [List.length_take]
          omega
        obtain ⟨x, xs, hx⟩ := List.exists_cons_of_ne_nil hne
        rw [htake, hx]
        simp [List.replicate_succ]

/-- The last chunk has length between 1 and `m`. -/
theorem chunkLoop_getLast (m : Nat) (hm : 0 < m) :
    ∀ fuel doc, doc.length ≤ fuel → ∀ x,
      (chunkLoop m fuel doc).getLast? = some x → 1 ≤ x.length ∧ x.length ≤ m := by
  intro fuel
  induction fuel with
  | zero =>
    intro doc h1 x hx
    have hd : doc = [] := List.eq_nil_of_length_eq_zero (Nat.le_zero.mp h1)
    subst hd
    rw [chunkLoop_nil] at hx
    simp at hx
  | succ f ih =>
    intro doc h1 x hx
    cases doc with
    | nil =>
      rw [chunkLoop_nil] at hx
      simp at hx
    | cons c cs =>
      rw [chunkLoop_cons] at hx
      by_cases hrest : (c :: cs).drop m = []
      · rw [hrest, chunkLoop_nil] at hx
        simp at hx
        subst hx
        constructor
        · rw [List.length_take]
          simp only [List.length_cons]
          omega
        · rw [List.length_take]
          omega
      · have hlen : ((c :: cs).drop m).length ≤ f := by
          rw [List.length_drop]
          simp only [List.length_cons] at h1 ⊢
          omega
        have hne := chunkLoop_ne_nil m f ((c :: cs).drop m) hrest hlen
        obtain ⟨y, ys, hy⟩ := List.exists_cons_of_ne_nil hne
        rw [hy, List.getLast?_cons_cons, ← hy] at hx
        exact ih _ hlen x hx

/-- The chunk list is empty exactly when the document is. -/
theorem chunkLoop_eq_nil_iff (m fuel : Nat) (doc : List Char)
    (hfuel : doc.length ≤ fuel) :
    chunkLoop m fuel doc = [] ↔ doc = [] := by
  constructor
  · intro h
    by_contra hd
    exact chunkLoop_ne_nil m fuel doc hd hfuel h
  · intro h
    subst h
    exact chunkLoop_nil m fuel

/-- The number of chunks is the ceiling `(doc.length + m - 1) / m`. -/
theorem chunkLoop_count (m : Nat) (hm : 0 < m) :
    ∀ fuel doc, doc.length ≤ fuel →
      (chunkLoop m fuel doc).length = (doc.length + m - 1) / m := by
  intro fuel
  induction fuel with
  | zero =>
    intro doc h1
    have hd : doc = [] := List.eq_nil_of_length_eq_zero (Nat.le_zero.mp h1)
    subst hd
    rw [chunkLoop_nil]
    simp only [List.length_nil, Nat.zero_add]
    exact (Nat.div_eq_of_lt (by omega)).symm
  | succ f ih =>
    intro doc h1
    cases doc with
    | nil =>
      rw [chunkLoop_nil]
      simp only [List.length_nil, Nat.zero_add]
      exact (Nat.div_eq_of_lt (by omega)).symm
    | cons c cs =>
      rw [chunkLoop_cons, List.length_cons]
      have hlen : ((c :: cs).drop m).length ≤ f := by
        rw [List.length_drop]
        simp only [List.length_cons] at h1 ⊢
        omega
      rw [ih _ hlen, List.length_drop]
      have hpos : 1 ≤ (c :: cs).length := by simp
      rcases Nat.lt_or_ge ((c :: cs).length) (m + 1) with hsm | hsm
      · have hz : (c :: cs).length - m = 0 := by omega
        rw [hz]
        have h2 : ((c :: cs).length + m - 1) / m = 1 :=
          Nat.div_eq_of_lt_le (by omega) (by omega)
        have h1m : (0 + m - 1) / m = 0 := Nat.div_eq_of_lt (by omega)
        rw [h2, h1m]
      · have heq : (c :: cs).length - m + m - 1 + m = (c :: cs).length + m - 1 := by omega
        have h3 : ((c :: cs).length - m + m - 1 + m) / m = ((c :: cs).length - m + m - 1) / m + 1 :=
          Nat.add_div_right _ hm
        rw [heq] at h3
        rw [h3]

theorem chunk_document_count (m : Nat) (hm : 0 < m) (doc : List Char) :
    (chunk_document doc m).length = (doc.length + m - 1) / m :=
  chunkLoop_count m hm doc.length doc (Nat.le_refl _)

theorem chunk_document_flatten (m : Nat) (hm : 0 < m) (doc : List Char) :
    (chunk_document doc m).flatten = doc :=
  chunkLoop_flatten m hm doc.length doc (Nat.le_refl _)

/-! ## Template rendering (src/agents.py, `create_messages`, lines 24-28)

`create_messages(prompt, document)` returns a system message with fixed
content and a human message whose content is `prompt.format(document=document)`.
-/

/-- The opening brace character (codepoint 123). -/
def braceChar : Char := Char.ofNat 123

/-- The closing brace character (codepoint 125). -/
def closeBraceChar : Char := Char.ofNat 125

/-- The format placeholder, i.e. the ten characters of the
brace-delimited field name `document` that appears exactly once in each
non-chat prompt template. -/
def placeholder : List Char :=
  braceChar :: 'd' :: 'o' :: 'c' :: 'u' :: 'm' :: 'e' :: 'n' :: 't' :: closeBraceChar :: []

/-- Embedding of `prompt.format(document=document)` for prompts whose
only brace syntax is the `document` placeholder: every occurrence of the
placeholder is replaced by `doc`, scanning left to right; substituted
text is not rescanned (Python semantics). -/
def substPlaceholder (doc : List Char) (l : List Char) : List Char :=
  match l with
  | [] => []
  | c :: rest =>
    if placeholder.isPrefixOf (c :: rest)
    then doc ++ substPlaceholder doc (rest.drop (placeholder.length - 1))
    else c :: substPlaceholder doc rest
  termination_by l.length
  decreasing_by
  · simp only [List.length_drop, List.length_cons]
    omega
  · simp only [List.length_cons]
    omega

theorem substPlaceholder_nil (doc : List Char) : substPlaceholder doc [] = [] := by
  rw [substPlaceholder]

/-- A placeholder match can only start at an opening brace. -/
theorem not_isPrefixOf_of_head_ne (c : Char) (rest : List Char) (hc : c ≠ braceChar) :
    placeholder.isPrefixOf (c :: rest) = false := by
  show List.isPrefixOf (braceChar :: _) (c :: rest) = false
  rw [List.isPrefixOf_cons₂]
  have : (braceChar == c) = false := by
    rw [beq_eq_false_iff_ne]
    exact fun h => hc h.symm
  rw [this]
  rfl

/-- Substitution leaves brace-free text unchanged. -/
theorem substPlaceholder_of_no_brace (doc : List Char) :
    ∀ l : List Char, braceChar ∉ l → substPlaceholder doc l = l := by
  intro l
  induction l with
  | nil => intro _; exact substPlaceholder_nil doc
  | cons c rest ih =>
    intro hb
    rw [substPlaceholder]
    have hc : c ≠ braceChar := fun h => hb (h ▸ List.mem_cons_self c rest)
    rw [not_isPrefixOf_of_head_ne c rest hc]
    simp only [Bool.false_eq_true, if_false]
    rw [ih (fun h => hb (List.mem_cons_of_mem c h))]

/-- Substitution distributes over a brace-free first part. -/
theorem substPlaceholder_append_of_no_brace (doc : List Char) :
    ∀ pre l : List Char, braceChar ∉ pre →
      substPlaceholder doc (pre ++ l) = pre ++ substPlaceholder doc l := by
  intro pre
  induction pre with
  | nil => intro l _; simp
  | cons c rest ih =>
    intro l hb
    rw [List.cons_append, substPlaceholder]
    have hc : c ≠ braceChar := fun h => hb (h ▸ List.mem_cons_self c rest)
    rw [not_isPrefixOf_of_head_ne c (rest ++ l) hc]
    simp only [Bool.false_eq_true, if_false]
    rw [ih l (fun h => hb (List.mem_cons_of_mem c h))]
    rfl

/-- Substitution at the placeholder itself inserts the document. -/
theorem substPlaceholder_placeholder_append (doc : List Char) (l : List Char) :
    substPlaceholder doc (placeholder ++ l) = doc ++ substPlaceholder doc l := by
  rw [show placeholder ++ l
      = braceChar :: (('d' :: 'o' :: 'c' :: 'u' :: 'm' :: 'e' :: 'n' :: 't' :: closeBraceChar :: []) ++ l) from rfl]
  rw [substPlaceholder]
  have hp : placeholder.isPrefixOf
      (braceChar :: (('d' :: 'o' :: 'c' :: 'u' :: 'm' :: 'e' :: 'n' :: 't' :: closeBraceChar :: []) ++ l)) = true := by
    rw [List.isPrefixOf_iff_prefix]
    exact ⟨l, by simp [placeholder]⟩
  rw [if_pos hp]
  have hdrop : (('d' :: 'o' :: 'c' :: 'u' :: 'm' :: 'e' :: 'n' :: 't' :: closeBraceChar :: []) ++ l).drop
      (placeholder.length - 1) = l := by
    rw [show placeholder.length - 1
        = ('d' :: 'o' :: 'c' :: 'u' :: 'm' :: 'e' :: 'n' :: 't' :: closeBraceChar :: []).length from rfl]
    exact List.drop_left _ l
  rw [hdrop]

/-- Rendering a template `pre ++ placeholder ++ suf` with brace-free
`pre` and `suf` yields `pre ++ doc ++ suf`: the chunk text appears
verbatim and no placeholder syntax survives. -/
theorem substPlaceholder_render (doc pre suf : List Char)
    (hpre : braceChar ∉ pre) (hsuf : braceChar ∉ suf) :
    substPlaceholder doc (pre ++ placeholder ++ suf) = pre ++ doc ++ suf := by
  rw [List.append_assoc, substPlaceholder_append_of_no_brace doc pre _ hpre,
      substPlaceholder_placeholder_append, substPlaceholder_of_no_brace doc suf hsuf,
      ← List.append_assoc]

/-! ## Messages and tasks -/

/-- Message roles, mirroring `SystemMessage` / `HumanMessage` from
langchain_core.messages as used in src/agents.py. -/
inductive Role
  | system
  | human
deriving DecidableEq

/-- A role-tagged message as submitted to `model.invoke`. -/
structure Message where
  role : Role
  content : List Char
deriving DecidableEq

/-- Content of the fixed system message built by `create_messages`. -/
def systemPromptContent : List Char := ("You are a legal expert AI assistant.").data

/-- `create_messages(prompt, document)` from src/agents.py lines 24-28:
a fixed system message and a human message whose content is
`prompt.format(document=document)`. -/
def create_messages (prompt : List Char) (document : List Char) : List Message :=
  [Message.mk Role.system systemPromptContent,
   Message.mk Role.human (substPlaceholder document prompt)]

/-- The six non-chat task agents of src/agents.py. -/
inductive AgentTask
  | summary
  | appeal
  | review
  | lawsuit
  | lawsuitResponse
  | contractAnalysis
deriving DecidableEq
/-- Text of the legal_summary_agent prompt template before the placeholder (source: src/agents.py). -/
def summaryPre : List Char := ("You are an expert legal AI assistant specialized in Serbian law. Your primary task is to create SHORT, HIGH-EFFICIENCY summaries of legal documents. Every summary must be concise and focused only on the most critical information a lawyer needs to know.

                CORE REQUIREMENTS:

                Maximum length: 600 words total
                Focus on actionable information
                Prioritize only the most critical points
                Use precise, economical language

                SUMMARY STRUCTURE:

                BASIC INFORMATION (2–3 lines)
                Case/Document Number: [Number, Date, Type]
                Parties: [Only main parties]
                Forum: [Court/Authority]

                CRITICAL OVERVIEW (30–40 words)
                One short paragraph covering the key issue and current status.

                KEY LEGAL ELEMENTS
                Primary Legal Issue: [Most important legal question]
                Essential Facts:
                • [Max 3 bullet points]
                Decisive Arguments:
                • [Strongest argument for each side]
                Key Evidence:
                • [Only evidence that determines the case outcome]

                OUTCOME & IMPACT (2–3 bullets)
                • Decision/Status
                • Urgent required action
                • Main risk/opportunity

                VITAL REFERENCES
                • Primary legal provision
                • Precedent (if applicable)

                WRITING GUIDELINES:
                Use short, declarative sentences
                Include only information that affects decision-making
                Exclude background unless essential
                Focus on conclusions rather than explanations
                Highlight only time-sensitive elements

                Please deliver a short summary of the following document, strictly following the length and format requirements above:
                ").data

/-- Text of the legal_summary_agent prompt template after the placeholder. -/
def summarySuf : List Char := ("
                
                Always respond in English, regardless of the document language.").data

/-- Text of the legal_appeal_agent prompt template before the placeholder (source: src/agents.py). -/
def appealPre : List Char := ("You are a legal assistant specialized in drafting formal appeals based on the provided legal document.
                Analyze the document and generate an appeal following the structure below:

                1. Header
                [NAME OF COURT]
                [JURISDICTION]
                [Case Number]
                [NAME OF APPELLANT], Appellant
                vs.
                [NAME OF RESPONDENT], Respondent

                2. APPEAL / NOTICE OF APPEAL
                [Formal notice of appeal]

                3. Statement of Jurisdiction
                [Explanation of the court\u2019s jurisdiction]

                4. Statement of Facts
                [Factual background]

                5. Issues on Appeal
                [List of specific issues being appealed]

                6. Argument
                [Detailed arguments for each issue]

                7. Conclusion
                [Requested outcome]

                8. Signature and Contact Information
                [Signature and details]

                9. Certificate of Service
                [Proof of service]

                Analyze the following document and fill in this structure:
                ").data

/-- Text of the legal_appeal_agent prompt template after the placeholder. -/
def appealSuf : List Char := ("
                Always respond in English, regardless of the document language.").data

/-- Text of the legal_review_agent prompt template before the placeholder (source: src/agents.py). -/
def reviewPre : List Char := ("You are an expert in Serbian law, an AI legal analyst with deep knowledge of Serbian contract, commercial and civil law.
                Where applicable, follow the guidelines below for specific document types. Create a focused legal review of the document (maximum 750 words). Your goal is to produce a concise, actionable overview that Serbian lawyers can immediately use.

                SUMMARY FOR ENFORCEMENT (3–4 sentences max)
                - Type of document, purpose, and parties
                - Applicable law and jurisdiction
                - Key financial or business obligations
                - Critical compliance status

                HIGH-PRIORITY ANALYSIS
                A. Legal Compliance (Top 3 critical issues)
                - Compliance problems with Serbian law, referencing specific statutes
                - Missing mandatory clauses required by the Serbian Civil Code
                - Consumer protection law issues (if applicable)
                - EU law implications affecting validity

                B. Risk Assessment (Top 3 by severity)
                - Business/legal risks with potential impact
                - Concerns about enforceability before Serbian courts
                - Deviations from Serbian market practice
                - Conflicts with recent Supreme Court precedents

                ACTION PLAN (maximum 5 points)
                - Required amendments for legal compliance
                - Specific clause modifications needed
                - Additional recommended provisions
                - Steps to mitigate risks
                - Practical guidance for implementation

                REVIEW REQUIREMENTS
                - Reference specific Serbian laws, regulations, and case law
                - Focus on essential issues, not formatting
                - Prioritize problems based on legal/business impact
                - Keep the language clear and action-oriented
                - Include business-critical EU law implications (when relevant)

                FINAL SUMMARY
                A 3-sentence conclusion highlighting the most urgent issue requiring immediate attention.

                REVIEW PARAMETERS
                - Each section must be direct and concise
                - Focus on major legal issues, not minor technicalities
                - Include only relevant case law references
                - Maintain practical business context
                - Emphasize any urgent compliance issues

                Analyze the following document according to these parameters:
                ").data

/-- Text of the legal_review_agent prompt template after the placeholder. -/
def reviewSuf : List Char := ("
                Always respond in English, regardless of the document language.").data

/-- Text of the legal_lawsuit_agent prompt template before the placeholder (source: src/agents.py). -/
def lawsuitPre : List Char := ("You are an AI assistant designed to help Serbian lawyers draft legal complaints and related documents.
                Analyze the document and generate a legal complaint following the structure below:

                [Name of Court]
                [Jurisdiction]
                [Case Number]

                PLAINTIFF: [Extract from document]
                DEFENDANT: [Extract from document]

                COMPLAINT

                I. INTRODUCTION
                [Generate an introduction based on the document]

                II. JURISDICTION AND VENUE
                [Determine the proper jurisdiction]

                III. PARTIES
                [Details about the parties extracted from the document]

                IV. FACTUAL ALLEGATIONS
                [Extract and organize the facts]

                V. CAUSES OF ACTION
                [Legal grounds for the claim]

                VI. DAMAGES
                [Specify the damages]

                VII. PRAYER FOR RELIEF
                [Formulate the requested remedies]

                VIII. REQUEST FOR JUDICIAL PANEL
                [Standard request]

                IX. EXHIBITS
                [List supporting evidence]

                Analyze the following document and complete the structure:
                ").data

/-- Text of the legal_lawsuit_agent prompt template after the placeholder. -/
def lawsuitSuf : List Char := ("
                Always respond in English, regardless of the document language.").data

/-- Text of the legal_lawsuit_response_agent prompt template before the placeholder (source: src/agents.py). -/
def lawsuitResponsePre : List Char := ("You are an AI assistant designed to help Serbian lawyers prepare legal answers to lawsuits.
                Analyze the document and generate an answer to the complaint using the structure below:

                [Name of Court]
                [Jurisdiction]
                [Case Number]

                Defendant: [Extract from document]
                Address: [Defendant\u2019s Address]
                Phone: [Defendant\u2019s Phone]
                Email: [Defendant\u2019s Email]

                ANSWER TO COMPLAINT

                I. INTRODUCTION
                [Generate an introduction based on the document]

                II. RESPONSE TO FACTUAL ALLEGATIONS
                [Address each allegation made by the plaintiff individually]

                III. LEGAL ARGUMENTS
                [Legal arguments and counterarguments]

                IV. EVIDENCE
                [List and describe supporting evidence]

                V. REQUEST FOR RELIEF
                [Formulate the defendant\u2019s requests]

                VI. EXHIBITS
                [List the exhibits]

                Analyze the following document and complete the structure:
                ").data

/-- Text of the legal_lawsuit_response_agent prompt template after the placeholder. -/
def lawsuitResponseSuf : List Char := ("
                Always respond in English, regardless of the document language.").data

/-- Text of the legal_contract_analysis_agent prompt template before the placeholder (source: src/agents.py). -/
def contractAnalysisPre : List Char := ("You are a legal contract analyst specialized in Serbian law.
                Please analyze the following contract according to these criteria:

                1. Basic Elements of the Contract:
                   - Offer and acceptance
                   - Consideration and intent
                   - Capacity to contract
                   - Compliance with the Law on Obligations (Zakon o obligacionim odnosima)

                2. Key Clauses:
                   - Identification and explanation of important provisions
                   - Assessment of clarity and enforceability
                   - Recommendations for improvement
                   - Potential legal ambiguities

                3. Legal Compliance:
                   - Verification of compliance with Serbian laws
                   - References to relevant regulations
                   - Alignment with case law
                   - Regulatory concerns

                4. Risk Assessment:
                   - Legal risks
                   - Financial risks
                   - Operational risks
                   - Recommendations for mitigation

                5. Special Provisions:
                   - Choice of law and jurisdiction
                   - International aspects (if any)
                   - Sector-specific requirements
                   - Data protection and confidentiality

                6. Recommendations for Improvement:
                   - Specific proposed amendments
                   - Additional protective measures
                   - Alignment with best practices
                   - Legal optimization

                Analyze the following contract:
                ").data

/-- Text of the legal_contract_analysis_agent prompt template after the placeholder. -/
def contractAnalysisSuf : List Char := ("
                Always respond in English, regardless of the document language.").data

/-- The chat agent system-message content (source: src/agents.py). -/
def chatSystemContent : List Char := ("
            You are the \"Legal Chat Helper Agent,\" designed to assist users in working with legal documents.
            Your role is to:
            - Guide users through document-related tasks
            - Explain content in simple, easy-to-understand language
            - Help interpret specific sections of documents
            - Suggest relevant actions (summaries, appeals, reviews, etc.)
            - Stay neutral and professional
            - Provide accurate, helpful responses
            
            When responding:
            1. First understand if the user needs:
               - An explanation of the document
               - Help editing or modifying the document
               - Guidance on using other agents
               - General legal questions
                                       
            2. Provide clear, structured guidance
            3. Suggest practical next steps
            4. Base your response strictly on the provided document
            Always respond in English, regardless of the document language.
        ").data

/-- Static text of the chat agent user message (f-string piece). -/
def chatUserPre : List Char := ("
            Based on this legal document, please help with the following:
            
            User Question: ").data

/-- Static text of the chat agent user message (f-string piece). -/
def chatUserMid : List Char := ("
            
            Document Content:
            ---
            ").data

/-- Static text of the chat agent user message (f-string piece). -/
def chatUserSuf : List Char := ("
            ---
            
            Please provide a helpful and detailed response while maintaining professional legal tone.
            Always respond in English, regardless of the document language.
        ").data

/-- The fixed apology string returned by the chat agent on failure. -/
def chatApology : List Char := ("I apologize, but I encountered an error. Could you please rephrase your question or specify what you\u0027d like to know about the document?").data

/-- The text of each task's prompt template before its placeholder. -/
def templatePre : AgentTask → List Char
  | AgentTask.summary => summaryPre
  | AgentTask.appeal => appealPre
  | AgentTask.review => reviewPre
  | AgentTask.lawsuit => lawsuitPre
  | AgentTask.lawsuitResponse => lawsuitResponsePre
  | AgentTask.contractAnalysis => contractAnalysisPre

/-- The text of each task's prompt template after its placeholder. -/
def templateSuf : AgentTask → List Char
  | AgentTask.summary => summarySuf
  | AgentTask.appeal => appealSuf
  | AgentTask.review => reviewSuf
  | AgentTask.lawsuit => lawsuitSuf
  | AgentTask.lawsuitResponse => lawsuitResponseSuf
  | AgentTask.contractAnalysis => contractAnalysisSuf

/-- The prompt template literal each agent passes to `create_messages`:
the text before the `document` placeholder, the placeholder, and the
text after it (src/agents.py lines 46-93, 111-148, 165-213, 230-271,
288-322, 339-380). -/
def template (t : AgentTask) : List Char := templatePre t ++ placeholder ++ templateSuf t

set_option maxRecDepth 40000

/-- None of the template text around the placeholder contains a brace,
so the placeholder written in `template` is the template's only brace
syntax (checked by evaluation over the full template text). -/
theorem templatePre_no_brace : ∀ t : AgentTask, braceChar ∉ templatePre t := by
  intro t
  cases t <;> decide

/-- The text after the placeholder is brace-free as well. -/
theorem templateSuf_no_brace : ∀ t : AgentTask, braceChar ∉ templateSuf t := by
  intro t
  cases t <;> decide

/-! ## Task agents (src/agents.py, lines 39-388)

Each non-chat agent chunks the document with the default maximum
length, renders its template for each chunk, submits the messages to
the model client, collects `response.content`, and joins the collected
texts with a single space; the whole body is wrapped in
`try/except Exception`, which converts any client exception into a
task-specific error string.
-/

/-- The external completion client: `model.invoke` wrapped so that an
exception with message `e` is `Except.error e` and a response whose
`.content` is `t` is `Except.ok t`. -/
abbrev Client : Type := List Message → Except (List Char) (List Char)

/-- The `for chunk in doc_chunks` loop shared by all six non-chat
agents: one `model.invoke` per chunk in order, collecting the contents;
a raised exception aborts the remaining iterations and propagates to
the agent's `except` handler. -/
def processChunks (client : Client) (tpl : List Char) : List (List Char) → Except (List Char) (List (List Char))
  | [] => Except.ok []
  | chunk :: rest =>
    match client (create_messages tpl chunk) with
    | Except.error e => Except.error e
    | Except.ok text =>
      match processChunks client tpl rest with
      | Except.error e => Except.error e
      | Except.ok texts => Except.ok (text :: texts)

/-- `" ".join(parts)`. -/
def joinSpace (parts : List (List Char)) : List Char := List.intercalate ((' ') :: []) parts

/-- The task-specific error string head: `"Error generating summary: "`,
..., `"Error analyzing contract: "` (src/agents.py lines 102, 156, 221,
279, 330, 388); the agent returns this followed by `str(e)`. -/
def errHead : AgentTask → List Char
  | AgentTask.summary => ("Error generating summary: ").data
  | AgentTask.appeal => ("Error generating appeal: ").data
  | AgentTask.review => ("Error generating review: ").data
  | AgentTask.lawsuit => ("Error generating lawsuit: ").data
  | AgentTask.lawsuitResponse => ("Error generating lawsuit response: ").data
  | AgentTask.contractAnalysis => ("Error analyzing contract: ").data

/-- `legal_summary_agent` (src/agents.py lines 39-102). -/
def legal_summary_agent (client : Client) (document : List Char) : List Char :=
  match processChunks client (template AgentTask.summary) (chunk_document document defaultMaxLength) with
  | Except.ok summaries => joinSpace summaries
  | Except.error e => errHead AgentTask.summary ++ e

/-- `legal_appeal_agent` (src/agents.py lines 104-156). -/
def legal_appeal_agent (client : Client) (document : List Char) : List Char :=
  match processChunks client (template AgentTask.appeal) (chunk_document document defaultMaxLength) with
  | Except.ok appeal_parts => joinSpace appeal_parts
  | Except.error e => errHead AgentTask.appeal ++ e

/-- `legal_review_agent` (src/agents.py lines 158-221). -/
def legal_review_agent (client : Client) (document : List Char) : List Char :=
  match processChunks client (template AgentTask.review) (chunk_document document defaultMaxLength) with
  | Except.ok reviews => joinSpace reviews
  | Except.error e => errHead AgentTask.review ++ e

/-- `legal_lawsuit_agent` (src/agents.py lines 223-279). -/
def legal_lawsuit_agent (client : Client) (document : List Char) : List Char :=
  match processChunks client (template AgentTask.lawsuit) (chunk_document document defaultMaxLength) with
  | Except.ok lawsuit_parts => joinSpace lawsuit_parts
  | Except.error e => errHead AgentTask.lawsuit ++ e

/-- `legal_lawsuit_response_agent` (src/agents.py lines 281-330). -/
def legal_lawsuit_response_agent (client : Client) (document : List Char) : List Char :=
  match processChunks client (template AgentTask.lawsuitResponse) (chunk_document document defaultMaxLength) with
  | Except.ok response_parts => joinSpace response_parts
  | Except.error e => errHead AgentTask.lawsuitResponse ++ e

/-- `legal_contract_analysis_agent` (src/agents.py lines 332-388). -/
def legal_contract_analysis_agent (client : Client) (document : List Char) : List Char :=
  match processChunks client (template AgentTask.contractAnalysis) (chunk_document document defaultMaxLength) with
  | Except.ok analysis_parts => joinSpace analysis_parts
  | Except.error e => errHead AgentTask.contractAnalysis ++ e

/-- Dispatch from task name to agent. -/
def runTask : AgentTask → Client → List Char → List Char
  | AgentTask.summary => legal_summary_agent
  | AgentTask.appeal => legal_appeal_agent
  | AgentTask.review => legal_review_agent
  | AgentTask.lawsuit => legal_lawsuit_agent
  | AgentTask.lawsuitResponse => legal_lawsuit_response_agent
  | AgentTask.contractAnalysis => legal_contract_analysis_agent

/-- The sequence of message lists a task agent submits to the client,
one per chunk, in chunk order (when no call fails earlier). -/
def taskMessages (t : AgentTask) (document : List Char) : List (List Message) :=
  (chunk_document document defaultMaxLength).map (create_messages (template t))

/-- All six agents share the same chunk/call/join shape. -/
theorem runTask_eq (t : AgentTask) (client : Client) (document : List Char) :
    runTask t client document
      = match processChunks client (template t) (chunk_document document defaultMaxLength) with
        | Except.ok parts => joinSpace parts
        | Except.error e => errHead t ++ e := by
  cases t <;> rfl

/-! ## Chat agent (src/agents.py, `legal_chat_helper_agent`, lines 390-435) -/

/-- The user-message content of the chat agent: the f-string embeds the
question and then the entire document between the static pieces — no
chunking. -/
def chatUserContent (document question : List Char) : List Char :=
  chatUserPre ++ question ++ chatUserMid ++ document ++ chatUserSuf

/-- The single message list the chat agent submits. -/
def chatMessages (document question : List Char) : List Message :=
  [Message.mk Role.system chatSystemContent,
   Message.mk Role.human (chatUserContent document question)]

/-- `legal_chat_helper_agent` (src/agents.py lines 390-435): one
`model.invoke` on the whole document, returning `response.content`
directly; any exception is converted to the fixed apology string. -/
def legal_chat_helper_agent (client : Client) (document question : List Char) : List Char :=
  match client (chatMessages document question) with
  | Except.ok out => out
  | Except.error _ => chatApology

/-! ## Startup configuration (src/agents.py, lines 8-21)

At import time the module reads `OPENAI_API_KEY` from the environment
and raises `ValueError` when it is missing or empty (`if not api_key`),
before the `ChatOpenAI` client is constructed and before any agent is
defined; otherwise the process-wide client configuration is built.
The environment is modelled as a partial map from variable names to
values; the sampling temperature is a float and is left out of the
configuration record (no claim concerns it).
-/

/-- The environment variable name holding the credential. -/
def apiKeyVarName : List Char := ("OPENAI_API_KEY").data

/-- The `ValueError` message raised when the credential is missing. -/
def missingKeyError : List Char := ("OPENAI_API_KEY not found in environment variables").data

/-- The process-wide model client configuration (`ChatOpenAI(...)`). -/
structure ModelConfig where
  modelName : List Char
  apiKey : List Char
  maxCompletionTokens : Nat
deriving DecidableEq

/-- Module initialization: `api_key = os.getenv("OPENAI_API_KEY")`
(`none` when absent) followed by `if not api_key: raise ValueError(...)`
(Python treats both `None` and the empty string as falsy), then the
client construction with model `gpt-4o-mini` and 2048 max completion
tokens.  `Except.error` models the raised `ValueError` aborting the
import. -/
def initModel (env : List Char → Option (List Char)) : Except (List Char) ModelConfig :=
  match env apiKeyVarName with
  | none => Except.error missingKeyError
  | some k =>
    if k = [] then Except.error missingKeyError
    else Except.ok (ModelConfig.mk (("gpt-4o-mini").data) k 2048)

/-- With a client that answers every call with the same text, the loop
collects that text once per chunk. -/
theorem processChunks_ok_all (client : Client) (tpl x : List Char)
    (h : ∀ msgs, client msgs = Except.ok x) :
    ∀ chunks, processChunks client tpl chunks = Except.ok (chunks.map (fun _ => x)) := by
  intro chunks
  induction chunks with
  | nil => rfl
  | cons chunk rest ih =>
    rw [processChunks, h, ih]
    rfl

/-- If the client succeeds on each chunk before `c` and raises on `c`,
the first raised exception propagates out of the loop, discarding the
outputs collected for the earlier chunks. -/
theorem processChunks_error (client : Client) (tpl e : List Char) :
    ∀ pre (c : List Char) post,
      (∀ x ∈ pre, ∃ out, client (create_messages tpl x) = Except.ok out) →
      client (create_messages tpl c) = Except.error e →
      processChunks client tpl (pre ++ c :: post) = Except.error e := by
  intro pre
  induction pre with
  | nil =>
    intro c post _ herr
    rw [List.nil_append, processChunks, herr]
  | cons x rest ih =>
    intro c post hok herr
    obtain ⟨out, hx⟩ := hok x (List.mem_cons_self x rest)
    rw [List.cons_append, processChunks, hx,
        ih c post (fun y hy => hok y (List.mem_cons_of_mem x hy)) herr]

/-- A brace-free string contains no occurrence of the placeholder. -/
theorem not_placeholder_infix_of_no_brace (l : List Char) (hb : braceChar ∉ l) :
    ¬ placeholder <:+: l := by
  intro h
  exact hb (h.subset (by simp [placeholder]))

/-! ## The claims -/

/-- C1: for every document `D` and maximum chunk length `L > 0`,
concatenating the chunker's output reproduces `D` exactly, every chunk
except possibly the last has length exactly `L`, the last chunk (when
`D` is nonempty) has length between 1 and `L`, and the chunk list is
empty exactly for the empty document. -/
theorem chunk_document_partition_spec (D : List Char) (L : Nat) (hL : 0 < L) :
    (chunk_document D L).flatten = D ∧
    ((chunk_document D L).dropLast).map List.length
      = List.replicate ((chunk_document D L).length - 1) L ∧
    (D = [] ∨ (1 ≤ ((chunk_document D L).getLastD []).length
               ∧ ((chunk_document D L).getLastD []).length ≤ L)) ∧
    (chunk_document D L = [] ↔ D = []) := by
  refine ⟨chunk_document_flatten L hL D,
          chunkLoop_dropLast_lengths L hL D.length D (Nat.le_refl _), ?_,
          chunkLoop_eq_nil_iff L D.length D (Nat.le_refl _)⟩
  by_cases hD : D = []
  · exact Or.inl hD
  · right
    have hne : chunkLoop L D.length D ≠ [] :=
      chunkLoop_ne_nil L D.length D hD (Nat.le_refl _)
    cases hq : (chunk_document D L).getLast? with
    | none => exact absurd (List.getLast?_eq_none_iff.mp hq) hne
    | some x =>
      have hx := chunkLoop_getLast L hL D.length D (Nat.le_refl _) x hq
      rw [List.getLastD_eq_getLast?, hq]
      simpa using hx

/-- Witness for C1 at `D = "abcde"`, `L = 2`. -/
theorem chunk_document_partition_spec_witness :
    (chunk_document (("abcde").data) 2).flatten = ("abcde").data ∧
    ((chunk_document (("abcde").data) 2).dropLast).map List.length
      = List.replicate ((chunk_document (("abcde").data) 2).length - 1) 2 ∧
    (("abcde").data = [] ∨ (1 ≤ ((chunk_document (("abcde").data) 2).getLastD []).length
               ∧ ((chunk_document (("abcde").data) 2).getLastD []).length ≤ 2)) ∧
    (chunk_document (("abcde").data) 2 = [] ↔ ("abcde").data = []) :=
  chunk_document_partition_spec (("abcde").data) 2 (by decide)

/-- C2: with a completion client returning the same text `x` (the claim
instantiates `x` with the literal string `X`) on every call, each
non-chat task agent returns the per-chunk outputs joined by single
spaces: `x` repeated once per chunk of the document. -/
theorem task_agent_constant_client (t : AgentTask) (client : Client)
    (document x : List Char) (h : ∀ msgs, client msgs = Except.ok x) :
    runTask t client document
      = joinSpace (List.replicate (chunk_document document defaultMaxLength).length x) := by
  rw [runTask_eq, processChunks_ok_all client (template t) x h, List.map_const']

/-- Witness for C2: a 12000-character document with the default maximum
length 5000 yields three chunks, and the output is the string
`X X X`. -/
theorem task_agent_constant_client_witness :
    runTask AgentTask.summary (fun _ => Except.ok (('X') :: []))
        (List.replicate 12000 ('a'))
      = ('X' :: ' ' :: 'X' :: ' ' :: 'X' :: []) := by
  have h := task_agent_constant_client AgentTask.summary
    (fun _ => Except.ok (('X') :: [])) (List.replicate 12000 ('a'))
    (('X') :: []) (fun _ => rfl)
  rw [h, chunk_document_count defaultMaxLength (by decide) (List.replicate 12000 ('a'))]
  rw [show ((List.replicate 12000 ('a') : List Char).length + defaultMaxLength - 1)
        / defaultMaxLength = 3 from by rw [List.length_replicate]; rfl]
  rfl

/-- C3: if the client succeeds on every chunk before `c` and raises
with message `e` on chunk `c`, every non-chat task agent returns (never
raises — it is a total function) the string `errHead t ++ e`, which
begins with the task-specific error head and, being determined by `e`
alone, contains none of the outputs collected for the earlier chunks. -/
theorem task_agent_error_string (t : AgentTask) (client : Client)
    (document e : List Char) (pre post : List (List Char)) (c : List Char)
    (hsplit : chunk_document document defaultMaxLength = pre ++ c :: post)
    (hok : ∀ x ∈ pre, ∃ out, client (create_messages (template t) x) = Except.ok out)
    (herr : client (create_messages (template t) c) = Except.error e) :
    runTask t client document = errHead t ++ e ∧
    errHead t <+: runTask t client document := by
  have hmain : runTask t client document = errHead t ++ e := by
    rw [runTask_eq, hsplit, processChunks_error client (template t) e pre c post hok herr]
  exact ⟨hmain, hmain ▸ ⟨e, rfl⟩⟩

/-- Witness for C3: a client that raises `boom` on the only chunk of
the document `hi`. -/
theorem task_agent_error_string_witness :
    runTask AgentTask.summary (fun _ => Except.error (("boom").data)) (("hi").data)
      = errHead AgentTask.summary ++ ("boom").data ∧
    errHead AgentTask.summary
      <+: runTask AgentTask.summary (fun _ => Except.error (("boom").data)) (("hi").data) :=
  task_agent_error_string AgentTask.summary (fun _ => Except.error (("boom").data))
    (("hi").data) (("boom").data) [] [] (("hi").data) (by decide) (by simp) rfl

/-- C4: if the client raises on the chat agent's single call, the chat
agent returns the fixed apology string (a constant, not an
error-description built from the exception) and never raises. -/
theorem chat_agent_failure_apology (client : Client) (document question e : List Char)
    (h : client (chatMessages document question) = Except.error e) :
    legal_chat_helper_agent client document question = chatApology := by
  simp [legal_chat_helper_agent, h]

/-- Witness for C4 with an always-raising client. -/
theorem chat_agent_failure_apology_witness :
    legal_chat_helper_agent (fun _ => Except.error (("x").data)) [] [] = chatApology :=
  chat_agent_failure_apology (fun _ => Except.error (("x").data)) [] [] (("x").data) rfl

/-- C5: for each of the six templated tasks the rendered user
instruction is the template text with the chunk substituted verbatim at
the placeholder, the chunk is an infix of it, and no unrendered
placeholder syntax remains in the template-supplied text; the chat
agent's user instruction likewise embeds the document verbatim and its
static pieces carry no placeholder. -/
theorem rendered_instruction_spec (t : AgentTask) (chunk doc q : List Char) :
    create_messages (template t) chunk
      = [Message.mk Role.system systemPromptContent,
         Message.mk Role.human (templatePre t ++ chunk ++ templateSuf t)] ∧
    chunk <:+: substPlaceholder chunk (template t) ∧
    ¬ placeholder <:+: templatePre t ∧
    ¬ placeholder <:+: templateSuf t ∧
    doc <:+: chatUserContent doc q ∧
    ¬ placeholder <:+: chatUserPre ∧
    ¬ placeholder <:+: chatUserMid ∧
    ¬ placeholder <:+: chatUserSuf := by
  have hrender : substPlaceholder chunk (template t)
      = templatePre t ++ chunk ++ templateSuf t :=
    substPlaceholder_render chunk (templatePre t) (templateSuf t)
      (templatePre_no_brace t) (templateSuf_no_brace t)
  refine ⟨?_, ?_, not_placeholder_infix_of_no_brace _ (templatePre_no_brace t),
          not_placeholder_infix_of_no_brace _ (templateSuf_no_brace t),
          ⟨chatUserPre ++ q ++ chatUserMid, chatUserSuf, by simp [chatUserContent]⟩,
          not_placeholder_infix_of_no_brace _ (by decide),
          not_placeholder_infix_of_no_brace _ (by decide),
          not_placeholder_infix_of_no_brace _ (by decide)⟩
  · show [Message.mk Role.system systemPromptContent,
          Message.mk Role.human (substPlaceholder chunk (template t))] = _
    rw [hrender]
  · rw [hrender]
    exact ⟨templatePre t, templateSuf t, by simp⟩

/-- C6 (corrected): for a NONEMPTY document no longer than the maximum
chunk length, the chunker returns exactly one chunk equal to the
document. -/
theorem chunk_document_single_chunk (doc : List Char) (m : Nat)
    (hm : 0 < m) (hne : doc ≠ []) (hlen : doc.length ≤ m) :
    chunk_document doc m = [doc] := by
  rw [chunk_document_step m hm doc hne, List.take_of_length_le hlen,
      List.drop_eq_nil_of_le hlen, chunk_document_nil]

/-- Witness for the corrected C6 at the two-character document `hi`. -/
theorem chunk_document_single_chunk_witness :
    chunk_document (("hi").data) 5000 = [("hi").data] :=
  chunk_document_single_chunk (("hi").data) 5000 (by decide) (by decide) (by decide)

/-- Counterexample to C6 as stated: the empty document has length
`0 ≤ L`, yet the chunker returns zero chunks, not one chunk equal to
the (empty) document. -/
theorem chunk_document_empty_not_single :
    chunk_document [] 5000 = [] ∧ chunk_document [] 5000 ≠ [[]] := by
  exact ⟨rfl, by decide⟩

/-- C7: the chat agent submits exactly one message list, whose human
message embeds the whole document (and the question) without chunking;
on success it returns the client's output directly, and its result
depends on the client only through that single call. -/
theorem chat_agent_single_call (client client2 : Client)
    (document question out : List Char)
    (h : client (chatMessages document question) = Except.ok out)
    (h2 : client2 (chatMessages document question)
          = client (chatMessages document question)) :
    legal_chat_helper_agent client document question = out ∧
    legal_chat_helper_agent client2 document question = out ∧
    document <:+: chatUserContent document question ∧
    question <:+: chatUserContent document question ∧
    chatMessages document question
      = [Message.mk Role.system chatSystemContent,
         Message.mk Role.human (chatUserContent document question)] := by
  refine ⟨?_, ?_,
          ⟨chatUserPre ++ question ++ chatUserMid, chatUserSuf, by simp [chatUserContent]⟩,
          ⟨chatUserPre, chatUserMid ++ document ++ chatUserSuf, by simp [chatUserContent]⟩,
          rfl⟩
  · simp [legal_chat_helper_agent, h]
  · rw [h] at h2
    simp [legal_chat_helper_agent, h2]

/-- Witness for C7 with a client answering `ans`. -/
theorem chat_agent_single_call_witness :
    legal_chat_helper_agent (fun _ => Except.ok (("ans").data)) (("d").data) (("q").data)
      = ("ans").data ∧
    legal_chat_helper_agent (fun _ => Except.ok (("ans").data)) (("d").data) (("q").data)
      = ("ans").data ∧
    ("d").data <:+: chatUserContent (("d").data) (("q").data) ∧
    ("q").data <:+: chatUserContent (("d").data) (("q").data) ∧
    chatMessages (("d").data) (("q").data)
      = [Message.mk Role.system chatSystemContent,
         Message.mk Role.human (chatUserContent (("d").data) (("q").data))] :=
  chat_agent_single_call (fun _ => Except.ok (("ans").data))
    (fun _ => Except.ok (("ans").data)) (("d").data) (("q").data) (("ans").data) rfl rfl

/-- C8: when the credential is absent from the environment, module
initialization stops with the `ValueError` message and no client
configuration is constructed. -/
theorem init_missing_key_fails (env : List Char → Option (List Char))
    (h : env apiKeyVarName = none) :
    initModel env = Except.error missingKeyError ∧
    (initModel env).toOption = none := by
  have hmain : initModel env = Except.error missingKeyError := by
    rw [initModel, h]
  exact ⟨hmain, by rw [hmain]; rfl⟩

/-- Witness for C8 with an empty environment. -/
theorem init_missing_key_fails_witness :
    initModel (fun _ => none) = Except.error missingKeyError ∧
    (initModel (fun _ => none)).toOption = none :=
  init_missing_key_fails (fun _ => none) rfl

/-- C9: on the empty document every non-chat task agent returns the
empty string for every client (so the result involves no client call),
the chunker yields zero chunks, and the sequence of message lists the
agent would submit is empty. -/
theorem task_agent_empty_document (t : AgentTask) (client : Client) :
    runTask t client [] = [] ∧
    chunk_document [] defaultMaxLength = [] ∧
    taskMessages t [] = [] := by
  refine ⟨?_, rfl, rfl⟩
  rw [runTask_eq]
  rfl

/-- C10: with `1 ≤ max_length`, the embedded scan loop is finished
after `document.length` iterations (any larger fuel gives the same
chunk list), and the resulting list is finite with exactly
`⌈document.length / max_length⌉` chunks. -/
theorem chunk_document_terminates (document : List Char) (max_length fuel : Nat)
    (hm : 1 ≤ max_length) (hfuel : document.length ≤ fuel) :
    chunkLoop max_length fuel document = chunk_document document max_length ∧
    (chunk_document document max_length).length
      = (document.length + max_length - 1) / max_length :=
  ⟨chunkLoop_eq_of_le max_length hm fuel document.length document hfuel (Nat.le_refl _),
   chunk_document_count max_length hm document⟩

/-- Witness for C10 at `document = "abc"`, `max_length = 2`, fuel 9. -/
theorem chunk_document_terminates_witness :
    chunkLoop 2 9 (("abc").data) = chunk_document (("abc").data) 2 ∧
    (chunk_document (("abc").data) 2).length = ((("abc").data).length + 2 - 1) / 2 :=
  chunk_document_terminates (("abc").data) 2 9 (by decide) (by decide)
